import Mathlib

/-!
Verification development for the NILM ESP32 firmware
(`src/hardware/esp32/src/`): a shallow embedding of the relay driver
(`relay_control.h`), the command dispatcher and scheduler loop
(`main.cpp`), the bounded reconnect routines (`mqtt_client.h`,
`wifi_config.h`) and the INA219 register scaling (`ina219.h`),
together with theorems settling the specification claims.
-/

namespace NILM

/-! ## Relay driver model (`relay_control.h`)

`RelayControl` holds two boolean flags `ch1_state`, `ch2_state` and
drives GPIO pins 4 and 5.  Each mutator is embedded as the ordered list
of primitive effects it performs (`digitalWrite` to a pin, then the
in-memory flag assignment), so that ordering of the physical write
versus the flag update is part of the model.  `RelayState` carries both
the in-memory flags and the last written physical pin levels. -/

def RELAY_CH1_PIN : Nat := 4

def RELAY_CH2_PIN : Nat := 5

structure RelayState where
  ch1_state : Bool
  ch2_state : Bool
  pin4 : Bool
  pin5 : Bool
deriving DecidableEq, Repr

inductive RelayAction where
  | digitalWrite (pin : Nat) (level : Bool)
  | setFlag (ch : Nat) (v : Bool)
deriving DecidableEq, Repr

def applyAction (st : RelayState) : RelayAction → RelayState
  | .digitalWrite p l =>
      if p = RELAY_CH1_PIN then { st with pin4 := l }
      else if p = RELAY_CH2_PIN then { st with pin5 := l }
      else st
  | .setFlag c v =>
      if c = 1 then { st with ch1_state := v }
      else if c = 2 then { st with ch2_state := v }
      else st

def runActions (st : RelayState) (tr : List RelayAction) : RelayState :=
  tr.foldl applyAction st

/-- `RelayControl::setChannel1`: `digitalWrite(RELAY_CH1_PIN, state)` then
`ch1_state = state`. -/
def setChannel1 (state : Bool) : List RelayAction :=
  [.digitalWrite RELAY_CH1_PIN state, .setFlag 1 state]

/-- `RelayControl::setChannel2`: `digitalWrite(RELAY_CH2_PIN, state)` then
`ch2_state = state`. -/
def setChannel2 (state : Bool) : List RelayAction :=
  [.digitalWrite RELAY_CH2_PIN state, .setFlag 2 state]

/-- `RelayControl::toggleChannel1`: `setChannel1(!ch1_state)`, reading the
flag of the state at call time. -/
def toggleChannel1 (st : RelayState) : List RelayAction :=
  setChannel1 (!st.ch1_state)

/-- `RelayControl::toggleChannel2`: `setChannel2(!ch2_state)`. -/
def toggleChannel2 (st : RelayState) : List RelayAction :=
  setChannel2 (!st.ch2_state)

/-- `RelayControl::allOff`: `setChannel1(false); setChannel2(false)`. -/
def allOff : List RelayAction :=
  setChannel1 false ++ setChannel2 false

/-- `RelayControl::allOn`: `setChannel1(true); setChannel2(true)`. -/
def allOn : List RelayAction :=
  setChannel1 true ++ setChannel2 true

/-- `RelayControl::begin`: writes both pins to `RELAY_OFF` and clears both
flags (the `pinMode` calls configure direction only and are not levels). -/
def relayBegin : List RelayAction :=
  [.digitalWrite RELAY_CH1_PIN false, .digitalWrite RELAY_CH2_PIN false,
   .setFlag 1 false, .setFlag 2 false]

/-- The state produced by the constructor / `begin`: both channels off,
both pins at the off level. -/
def relayInit : RelayState :=
  { ch1_state := false, ch2_state := false, pin4 := false, pin5 := false }

/-- The in-memory flags agree with the last issued physical writes. -/
def agrees (st : RelayState) : Prop :=
  st.ch1_state = st.pin4 ∧ st.ch2_state = st.pin5

instance (st : RelayState) : Decidable (agrees st) := by
  unfold agrees; infer_instance

def flagPin (c : Nat) : Nat :=
  if c = 1 then RELAY_CH1_PIN else RELAY_CH2_PIN

/-- Checks that every in-memory flag assignment in a trace is preceded by
the physical write of the same level to that channel's pin. -/
def writesPrecedeFlagsAux (issued : List (Nat × Bool)) :
    List RelayAction → Bool
  | [] => true
  | .digitalWrite p l :: rest => writesPrecedeFlagsAux ((p, l) :: issued) rest
  | .setFlag c v :: rest =>
      decide ((flagPin c, v) ∈ issued) && writesPrecedeFlagsAux issued rest

def writesPrecedeFlags (tr : List RelayAction) : Bool :=
  writesPrecedeFlagsAux [] tr

/-- Number of occurrences of one primitive action in a trace. -/
def countAction (a : RelayAction) (tr : List RelayAction) : Nat :=
  tr.countP fun x => decide (x = a)

/-! ## Command dispatcher model (`main.cpp`, `mqttCallback`)

A successfully parsed command document is a key-presence map; the only
values the dispatcher ever extracts are booleans
(`doc["relay_chN"].as<bool>()`), so values are modelled as `Bool`.
The payload keeps its field order as a list, `containsKey` is presence
of the key anywhere and `getBool` reads the first occurrence. -/

abbrev Doc := List (String × Bool)

def containsKey (d : Doc) (k : String) : Bool :=
  d.any fun kv => kv.1 = k

def getBool (d : Doc) (k : String) : Bool :=
  ((d.find? fun kv => kv.1 = k).map Prod.snd).getD false

def DEVICE_ID : String := "NILM_ESP32_001"

def sensorTopic : String := "nilm/sensor/" ++ DEVICE_ID

def commandTopic : String := "nilm/command/" ++ DEVICE_ID

def statusTopic : String := "nilm/status/" ++ DEVICE_ID

/-- The directive-application part of `mqttCallback` (lines 357-384):
six key checks in fixed source order, each applying the corresponding
`RelayControl` mutator to the state left by the previous steps.
Returns the final relay state and the concatenated effect trace. -/
def dispatch (st : RelayState) (d : Doc) : RelayState × List RelayAction :=
  let tr1 := if containsKey d "relay_ch1" then setChannel1 (getBool d "relay_ch1") else []
  let st1 := runActions st tr1
  let tr2 := if containsKey d "relay_ch2" then setChannel2 (getBool d "relay_ch2") else []
  let st2 := runActions st1 tr2
  let tr3 := if containsKey d "toggle_ch1" then toggleChannel1 st2 else []
  let st3 := runActions st2 tr3
  let tr4 := if containsKey d "toggle_ch2" then toggleChannel2 st3 else []
  let st4 := runActions st3 tr4
  let tr5 := if containsKey d "all_off" then allOff else []
  let st5 := runActions st4 tr5
  let tr6 := if containsKey d "all_on" then allOn else []
  let st6 := runActions st5 tr6
  (st6, tr1 ++ tr2 ++ tr3 ++ tr4 ++ tr5 ++ tr6)

structure AckMsg where
  device_id : String
  status : String
  relay_ch1 : Bool
  relay_ch2 : Bool
deriving DecidableEq, Repr

structure CallbackResult where
  finalRelay : RelayState
  actions : List RelayAction
  acks : List (String × AckMsg)
  logs : List String
deriving DecidableEq, Repr

/-- Outcome of `deserializeJson` on the payload. -/
inductive ParseResult where
  | ok (d : Doc)
  | error
deriving DecidableEq

/-- `mqttCallback` (lines 338-396): on parse error, log and return with no
mutator calls and no publish; on success, apply `dispatch` and publish
exactly one acknowledgment on the status topic carrying the post-mutation
channel flags and the success marker `"ok"`. -/
def mqttCallback (st : RelayState) (pr : ParseResult) : CallbackResult :=
  match pr with
  | .error =>
      { finalRelay := st, actions := [], acks := [],
        logs := ["Failed to parse JSON command"] }
  | .ok d =>
      let r := dispatch st d
      { finalRelay := r.1, actions := r.2,
        acks := [(statusTopic,
          { device_id := DEVICE_ID, status := "ok",
            relay_ch1 := r.1.ch1_state, relay_ch2 := r.1.ch2_state })],
        logs := [] }

/-! ## Sensor reading model (`main.cpp`, `readSensor`)

Register-scaled measurements are embedded over `ℚ` (the C code uses
`float`; the claims here concern exact zeroes and signs, which the
rational model captures exactly). -/

structure SensorData where
  current : ℚ
  voltage : ℚ
  power : ℚ
  timestamp : Nat
deriving DecidableEq

/-- `readSensor` (lines 250-269): with the sensor available, scale the
INA219 readings (mA→A, mW→W); otherwise store zero values.  In both
branches `timestamp` is assigned the current `millis()`. -/
def readSensor (sensorAvailable : Bool) (current_mA busVoltage_V power_mW : ℚ)
    (now : Nat) : SensorData :=
  if sensorAvailable then
    { current := current_mA / 1000, voltage := busVoltage_V,
      power := power_mW / 1000, timestamp := now }
  else
    { current := 0, voltage := 0, power := 0, timestamp := now }

/-! ## INA219 register scaling (`ina219.h`) -/

/-- Reinterpret a 16-bit register value as a signed two's-complement
integer, as in `(int16_t)readRegister(...)`. -/
def toInt16 (v : Nat) : Int :=
  if v % 65536 < 32768 then ((v % 65536 : Nat) : Int)
  else ((v % 65536 : Nat) : Int) - 65536

/-- `INA219::getCurrent_mA`: signed register times the current LSB. -/
def getCurrent_mA (currentLSB : ℚ) (reg : Nat) : ℚ :=
  (toInt16 reg : ℚ) * currentLSB

/-- `INA219::getPower_mW`: unsigned register times the power LSB. -/
def getPower_mW (powerLSB : ℚ) (reg : Nat) : ℚ :=
  ((reg % 65536 : Nat) : ℚ) * powerLSB

/-- `setCalibration_32V_2A` (the profile selected in `setup()`):
`_currentLSB = 0.1` mA/bit. -/
def currentLSB_32V_2A : ℚ := 1 / 10

/-- `setCalibration_32V_2A`: `_powerLSB = 0.2` mW/bit. -/
def powerLSB_32V_2A : ℚ := 1 / 5

/-! ## Bounded reconnect routines (`mqtt_client.h`, `wifi_config.h`)

`reconnectMQTT` and the polling tail of `connectToWiFi` are embedded as
fuel recursions whose fuel is exactly the source's attempt budget, so
termination within the budget is by construction and the budget itself
is a theorem.  The outcome of an individual `connect()` call or
`WiFi.status()` poll is an oracle function of the attempt index. -/

/-- The `while (!mqttClient.connected() && attempts < 5)` loop of
`reconnectMQTT`, counting `connect()` calls and recording the
`delay(2000)` pauses taken between failed attempts (`attempts < 4`).
Returns (number of connect calls, pause durations, connected). -/
def mqttConnectRun (connectOk : Nat → Bool) : Nat → Nat → Nat × List Nat × Bool
  | tries, 0 => (tries, [], false)
  | tries, fuel + 1 =>
      if connectOk tries then (tries + 1, [], true)
      else
        let rest := mqttConnectRun connectOk (tries + 1) fuel
        (rest.1, (if fuel = 0 then [] else [2000]) ++ rest.2.1, rest.2.2)

/-- `reconnectMQTT`: returns immediately with no connect attempt when the
link is down (`WiFi.status() != WL_CONNECTED`), makes no attempt when the
client is already connected, and otherwise runs at most 5 connect tries. -/
def reconnectMQTT (wifiConnected : Bool) (alreadyConnected : Bool)
    (connectOk : Nat → Bool) : Nat × List Nat × Bool :=
  if wifiConnected = false then (0, [], alreadyConnected)
  else if alreadyConnected then (0, [], true)
  else mqttConnectRun connectOk 0 5

/-- The `while (WiFi.status() != WL_CONNECTED && attempts < maxAttempts)`
polling loop of `connectToWiFi`, counting iterations (each a `delay(500)`
plus a status poll). -/
def wifiWaitPolls (statusOk : Nat → Bool) : Nat → Nat → Nat
  | polls, 0 => polls
  | polls, fuel + 1 =>
      if statusOk polls then polls else wifiWaitPolls statusOk (polls + 1) fuel

/-- `connectToWiFi` polls at most `maxAttempts = 30` times per call. -/
def connectToWiFiPolls (statusOk : Nat → Bool) : Nat :=
  wifiWaitPolls statusOk 0 30

/-! ## Scheduler loop model (`main.cpp`, `loop`)

One iteration of `loop()` in four phases in source order: WiFi health
check, MQTT session maintenance, sensor sampling, telemetry publishing.
`millis()` is observed twice per iteration in the source (line 154 and
line 234, after the potentially slow reconnect block), giving the two
time inputs `t1 ≤ t2` of the environment.  Timer comparisons use the
`uint32_t` subtraction `now - last` modulo `2^32`. -/

def U32 : Nat := 4294967296

/-- `uint32_t` subtraction `a - b` as used in `currentMillis - last`. -/
def usub (a b : Nat) : Nat :=
  (a % U32 + (U32 - b % U32)) % U32

def SENSOR_READ_INTERVAL : Nat := 100

def MQTT_PUBLISH_INTERVAL : Nat := 1000

def WIFI_CHECK_INTERVAL : Nat := 10000

def STATUS_PRINT_INTERVAL : Nat := 10000

def MQTT_RECONNECT_INTERVAL : Nat := 10000

def WL_CONNECTED : Nat := 3

structure LoopTimers where
  lastWiFiCheck : Nat
  lastStatusPrint : Nat
  lastMqttReconnectAttempt : Nat
  lastSensorRead : Nat
  lastMqttPublish : Nat
deriving DecidableEq, Repr

structure LoopState where
  timers : LoopTimers
  mqttConnected : Bool
  sensorAvailable : Bool
  sensorData : SensorData
  relay : RelayState
deriving DecidableEq

/-- Per-iteration environment: the two clock observations, the observed
WiFi status, whether a `reconnectMQTT` call would leave the client
connected, and the sensor's raw readings. -/
structure Env where
  t1 : Nat
  t2 : Nat
  wifiStatus : Nat
  reconnectOk : Bool
  cur_mA : ℚ
  bus_V : ℚ
  pow_mW : ℚ
deriving DecidableEq

inductive LoopEvent where
  | wifiReconnect
  | mqttReconnectAttempt
  | subscribe (topic : String)
  | publish (topic : String)
  | mqttDisconnect
  | mqttPump
  | sensorRead
deriving DecidableEq, Repr

def countEvent (ev : LoopEvent) (evs : List LoopEvent) : Nat :=
  evs.countP fun x => decide (x = ev)

/-- `publishSensorData`: publishes on the sensor topic only when the MQTT
client is connected (early return otherwise). -/
def publishSensorCalls (connected : Bool) : List LoopEvent :=
  if connected then [.publish sensorTopic] else []

/-- `publishRelayStatus`: publishes on the status topic only when the MQTT
client is connected. -/
def publishStatusCalls (connected : Bool) : List LoopEvent :=
  if connected then [.publish statusTopic] else []

/-- Loop lines 157-185: the 10 s WiFi health check.  When due: if the
link is up, optionally emit the throttled status log (resetting
`lastStatusPrint`); if down, attempt reassociation.  `lastWiFiCheck` is
reset to `currentMillis` in both branches. -/
def wifiPhase (tm : LoopTimers) (e : Env) : LoopTimers × List LoopEvent :=
  if usub e.t1 tm.lastWiFiCheck ≥ WIFI_CHECK_INTERVAL then
    if e.wifiStatus = WL_CONNECTED then
      let tm1 := if usub e.t1 tm.lastStatusPrint ≥ STATUS_PRINT_INTERVAL then
        { tm with lastStatusPrint := e.t1 } else tm
      ({ tm1 with lastWiFiCheck := e.t1 }, [])
    else
      ({ tm with lastWiFiCheck := e.t1 }, [.wifiReconnect])
  else (tm, [])

/-- Loop lines 191-231: MQTT session maintenance.  With the link up and
the session down, a due reconnect attempt runs `reconnectMQTT`; on
success the command topic is resubscribed and one telemetry message is
published immediately.  With the link up and the session up, the client
is pumped.  With the link down, a connected client is disconnected.
Returns (timers, session connected after the phase, events). -/
def mqttPhase (tm : LoopTimers) (mqttConnected : Bool) (e : Env) :
    LoopTimers × Bool × List LoopEvent :=
  if e.wifiStatus = WL_CONNECTED then
    if mqttConnected = false then
      if usub e.t1 tm.lastMqttReconnectAttempt ≥ MQTT_RECONNECT_INTERVAL then
        let tm1 := { tm with lastMqttReconnectAttempt := e.t1 }
        if e.reconnectOk then
          (tm1, true,
           [.mqttReconnectAttempt, .subscribe commandTopic] ++ publishSensorCalls true)
        else (tm1, false, [.mqttReconnectAttempt])
      else (tm, false, [])
    else (tm, true, [.mqttPump])
  else
    if mqttConnected then (tm, false, [.mqttDisconnect]) else (tm, false, [])

/-- Loop lines 233-238: the 10 Hz sensor sampling concern. -/
def sensorPhase (tm : LoopTimers) (sensorAvailable : Bool) (sd : SensorData)
    (e : Env) : LoopTimers × SensorData × List LoopEvent :=
  if usub e.t2 tm.lastSensorRead ≥ SENSOR_READ_INTERVAL then
    ({ tm with lastSensorRead := e.t2 },
     readSensor sensorAvailable e.cur_mA e.bus_V e.pow_mW e.t2, [.sensorRead])
  else (tm, sd, [])

/-- Loop lines 240-245: the 1 Hz telemetry-and-status publish concern. -/
def publishPhase (tm : LoopTimers) (mqttConnected : Bool) (e : Env) :
    LoopTimers × List LoopEvent :=
  if usub e.t2 tm.lastMqttPublish ≥ MQTT_PUBLISH_INTERVAL then
    ({ tm with lastMqttPublish := e.t2 },
     publishSensorCalls mqttConnected ++ publishStatusCalls mqttConnected)
  else (tm, [])

/-- One full iteration of `loop()`. -/
def loopIter (st : LoopState) (e : Env) : LoopState × List LoopEvent :=
  let w := wifiPhase st.timers e
  let m := mqttPhase w.1 st.mqttConnected e
  let s := sensorPhase m.1 st.sensorAvailable st.sensorData e
  let p := publishPhase s.1 m.2.1 e
  ({ timers := p.1, mqttConnected := m.2.1, sensorAvailable := st.sensorAvailable,
     sensorData := s.2.1, relay := st.relay },
   w.2 ++ m.2.2 ++ s.2.2 ++ p.2)

/-- Several iterations of `loop()`, concatenating their events. -/
def runLoop (st : LoopState) : List Env → LoopState × List LoopEvent
  | [] => (st, [])
  | e :: rest =>
      let r := loopIter st e
      let r2 := runLoop r.1 rest
      (r2.1, r.2 ++ r2.2)

def initSensorData : SensorData :=
  { current := 0, voltage := 0, power := 0, timestamp := 0 }

/-- State of a node whose loop stalled right after servicing every concern
at time 0: session up, link up, no sensor. -/
def stallState : LoopState :=
  { timers := { lastWiFiCheck := 0, lastStatusPrint := 0,
                lastMqttReconnectAttempt := 0, lastSensorRead := 0,
                lastMqttPublish := 0 },
    mqttConnected := true, sensorAvailable := false,
    sensorData := initSensorData, relay := relayInit }

/-- Healthy environment (link up, session stays up) observed at time `t`. -/
def stallEnv (t : Nat) : Env :=
  { t1 := t, t2 := t, wifiStatus := WL_CONNECTED, reconnectOk := false,
    cur_mA := 0, bus_V := 0, pow_mW := 0 }

/-! ## Helper lemmas -/

theorem runActions_nil (st : RelayState) : runActions st [] = st := rfl

theorem runActions_setChannel1 (st : RelayState) (s : Bool) :
    runActions st (setChannel1 s) = { st with pin4 := s, ch1_state := s } := by
  simp [runActions, setChannel1, applyAction, RELAY_CH1_PIN]

theorem runActions_setChannel2 (st : RelayState) (s : Bool) :
    runActions st (setChannel2 s) = { st with pin5 := s, ch2_state := s } := by
  simp [runActions, setChannel2, applyAction, RELAY_CH1_PIN, RELAY_CH2_PIN]

theorem runActions_toggleChannel1 (st st' : RelayState) :
    runActions st (toggleChannel1 st') =
      { st with pin4 := !st'.ch1_state, ch1_state := !st'.ch1_state } := by
  simp [toggleChannel1, runActions_setChannel1]

theorem runActions_toggleChannel2 (st st' : RelayState) :
    runActions st (toggleChannel2 st') =
      { st with pin5 := !st'.ch2_state, ch2_state := !st'.ch2_state } := by
  simp [toggleChannel2, runActions_setChannel2]

theorem runActions_allOff (st : RelayState) :
    runActions st allOff = relayInit := by
  simp [runActions, allOff, setChannel1, setChannel2, applyAction,
    RELAY_CH1_PIN, RELAY_CH2_PIN, relayInit]

theorem runActions_allOn (st : RelayState) :
    runActions st allOn =
      { ch1_state := true, ch2_state := true, pin4 := true, pin5 := true } := by
  simp [runActions, allOn, setChannel1, setChannel2, applyAction,
    RELAY_CH1_PIN, RELAY_CH2_PIN]

theorem runActions_relayBegin (st : RelayState) :
    runActions st relayBegin = relayInit := by
  simp [runActions, relayBegin, applyAction, RELAY_CH1_PIN, RELAY_CH2_PIN, relayInit]

/-! ## Claim theorems -/

/-- C6: every `RelayControl` mutator issues the physical pin write before
updating the in-memory channel flag (checked on its effect trace); after
any mutator applied to an agreeing state the flags again equal the last
issued pin levels; `begin` initializes both channels off with the off
level written to both pins. -/
theorem C6_write_precedes_flag_state_mirrors :
    (∀ st : RelayState, runActions st relayBegin = relayInit)
    ∧ agrees relayInit
    ∧ (∀ s : Bool, writesPrecedeFlags (setChannel1 s) = true
        ∧ writesPrecedeFlags (setChannel2 s) = true)
    ∧ (∀ st : RelayState, writesPrecedeFlags (toggleChannel1 st) = true
        ∧ writesPrecedeFlags (toggleChannel2 st) = true)
    ∧ writesPrecedeFlags relayBegin = true
    ∧ writesPrecedeFlags allOff = true
    ∧ writesPrecedeFlags allOn = true
    ∧ (∀ (st : RelayState) (s : Bool), agrees st →
        agrees (runActions st (setChannel1 s))
        ∧ agrees (runActions st (setChannel2 s))
        ∧ agrees (runActions st (toggleChannel1 st))
        ∧ agrees (runActions st (toggleChannel2 st))
        ∧ agrees (runActions st allOff)
        ∧ agrees (runActions st allOn)) := by
  refine ⟨runActions_relayBegin, by decide, ?_, ?_, by decide, by decide, by decide, ?_⟩
  · intro s; cases s <;> exact ⟨by decide, by decide⟩
  · intro st
    obtain ⟨a, b, c, d⟩ := st
    cases a <;> cases b <;> cases c <;> cases d <;> exact ⟨by decide, by decide⟩
  · intro st s
    obtain ⟨a, b, c, d⟩ := st
    cases a <;> cases b <;> cases c <;> cases d <;> cases s <;> decide

/-- C6 witness: the invariant hypotheses hold at the freshly initialized
state and the theorem applies there. -/
theorem C6_witness :
    agrees relayInit ∧ agrees (runActions relayInit (toggleChannel1 relayInit)) := by
  have h := C6_write_precedes_flag_state_mirrors
  exact ⟨h.2.1, (h.2.2.2.2.2.2.2 relayInit true h.2.1).2.2.1⟩

/-- C8: two successive `allOff()` calls leave both channels (and both pin
levels) off, and the second call re-issues the off write to each channel:
the combined trace holds two off-writes per pin. -/
theorem C8_allOff_idempotent_no_dedup :
    (∀ st : RelayState,
      runActions st allOff = relayInit
      ∧ runActions (runActions st allOff) allOff = relayInit)
    ∧ countAction (.digitalWrite RELAY_CH1_PIN false) allOff = 1
    ∧ countAction (.digitalWrite RELAY_CH2_PIN false) allOff = 1
    ∧ countAction (.digitalWrite RELAY_CH1_PIN false) (allOff ++ allOff) = 2
    ∧ countAction (.digitalWrite RELAY_CH2_PIN false) (allOff ++ allOff) = 2 := by
  exact ⟨fun st => ⟨runActions_allOff st, runActions_allOff _⟩,
    by decide, by decide, by decide, by decide⟩

/-- C1: dispatch applies matching directives in the fixed source order
set-ch1, set-ch2, toggle-ch1, toggle-ch2, all-off, all-on, so later steps
win.  First part: a message carrying both \x7bset ch1=true\x7d and
\x7btoggle ch1\x7d (and no all-on) leaves channel 1 false, whatever the
field order and whatever other fields appear.  Second part: a message
carrying \x7ball on\x7d leaves both channels on regardless of every other
field and of payload order. -/
theorem C1_fixed_directive_order :
    (∀ (st : RelayState) (d : Doc),
      containsKey d "relay_ch1" = true →
      getBool d "relay_ch1" = true →
      containsKey d "toggle_ch1" = true →
      containsKey d "all_on" = false →
      (dispatch st d).1.ch1_state = false)
    ∧ (∀ (st : RelayState) (d : Doc),
      containsKey d "all_on" = true →
      (dispatch st d).1.ch1_state = true ∧ (dispatch st d).1.ch2_state = true) := by
  constructor
  · intro st d h1 hv h3 h6
    by_cases h2 : containsKey d "relay_ch2" <;>
      by_cases h4 : containsKey d "toggle_ch2" <;>
        by_cases h5 : containsKey d "all_off" <;>
          simp [dispatch, h1, hv, h2, h3, h4, h5, h6, runActions_nil,
            runActions_setChannel1, runActions_setChannel2,
            runActions_toggleChannel1, runActions_toggleChannel2,
            runActions_allOff, relayInit]
  · intro st d h6
    constructor <;> simp [dispatch, h6, runActions_allOn]

/-- C1 witness: the two example messages, each in both payload field
orders, dispatched from the initial state. -/
theorem C1_witness :
    (dispatch relayInit [("relay_ch1", true), ("toggle_ch1", true)]).1.ch1_state = false
    ∧ (dispatch relayInit [("toggle_ch1", true), ("relay_ch1", true)]).1.ch1_state = false
    ∧ (dispatch relayInit [("all_on", true), ("relay_ch1", false)]).1.ch1_state = true
    ∧ (dispatch relayInit [("all_on", true), ("relay_ch1", false)]).1.ch2_state = true
    ∧ (dispatch relayInit [("relay_ch1", false), ("all_on", true)]).1.ch1_state = true
    ∧ (dispatch relayInit [("relay_ch1", false), ("all_on", true)]).1.ch2_state = true := by
  have h := C1_fixed_directive_order
  refine ⟨h.1 relayInit _ (by decide) (by decide) (by decide) (by decide),
    h.1 relayInit _ (by decide) (by decide) (by decide) (by decide),
    (h.2 relayInit _ (by decide)).1, (h.2 relayInit _ (by decide)).2,
    (h.2 relayInit _ (by decide)).1, (h.2 relayInit _ (by decide)).2⟩

/-- C2: a failed parse performs zero mutator effects, publishes zero
acknowledgments, leaves the relay state untouched and logs the failure;
a successful parse publishes exactly one acknowledgment, on the status
topic, carrying the post-mutation channel flags and the `"ok"` marker. -/
theorem C2_parse_gate_single_ack :
    (∀ st : RelayState,
      (mqttCallback st .error).actions = []
      ∧ (mqttCallback st .error).acks = []
      ∧ (mqttCallback st .error).finalRelay = st
      ∧ "Failed to parse JSON command" ∈ (mqttCallback st .error).logs)
    ∧ (∀ (st : RelayState) (d : Doc),
      (mqttCallback st (.ok d)).acks =
        [(statusTopic,
          { device_id := DEVICE_ID, status := "ok",
            relay_ch1 := (dispatch st d).1.ch1_state,
            relay_ch2 := (dispatch st d).1.ch2_state })]
      ∧ (mqttCallback st (.ok d)).finalRelay = (dispatch st d).1
      ∧ (mqttCallback st (.ok d)).actions = (dispatch st d).2) := by
  exact ⟨fun st => ⟨rfl, rfl, rfl, by simp [mqttCallback]⟩,
    fun st d => ⟨rfl, rfl, rfl⟩⟩

/-- C3 counterexample: the claim "every field of the Reading, including
the timestamp, is exactly zero" fails: a capture at `millis() = 5`
without a sensor stores timestamp 5. -/
theorem C3_counterexample :
    ¬ ((readSensor false 7 8 9 5).current = 0
       ∧ (readSensor false 7 8 9 5).voltage = 0
       ∧ (readSensor false 7 8 9 5).power = 0
       ∧ (readSensor false 7 8 9 5).timestamp = 0) := by
  intro h
  exact absurd h.2.2.2 (by decide)

/-- C3 amended: while the sensor is unavailable every capture stores
exactly zero current, voltage and power, the timestamp is the capture
time, and the loop never re-probes sensor presence (`sensorAvailable` is
invariant across iterations). -/
theorem C3_zeroed_readings_persist :
    (∀ (c v p : ℚ) (now : Nat),
      (readSensor false c v p now).current = 0
      ∧ (readSensor false c v p now).voltage = 0
      ∧ (readSensor false c v p now).power = 0
      ∧ (readSensor false c v p now).timestamp = now)
    ∧ (∀ (st : LoopState) (e : Env),
      (loopIter st e).1.sensorAvailable = st.sensorAvailable) := by
  exact ⟨fun c v p now => ⟨rfl, rfl, rfl, rfl⟩, fun st e => rfl⟩

theorem countEvent_nil (ev : LoopEvent) : countEvent ev [] = 0 := rfl

theorem countEvent_singleton (ev x : LoopEvent) :
    countEvent ev [x] = if x = ev then 1 else 0 := by
  simp [countEvent, List.countP_cons]

theorem countEvent_append (ev : LoopEvent) (a b : List LoopEvent) :
    countEvent ev (a ++ b) = countEvent ev a + countEvent ev b := by
  simp [countEvent, List.countP_append]

theorem wifiPhase_preserves (tm : LoopTimers) (e : Env) :
    (wifiPhase tm e).1.lastMqttReconnectAttempt = tm.lastMqttReconnectAttempt
    ∧ (wifiPhase tm e).1.lastSensorRead = tm.lastSensorRead
    ∧ (wifiPhase tm e).1.lastMqttPublish = tm.lastMqttPublish := by
  simp only [wifiPhase]
  split_ifs <;> exact ⟨rfl, rfl, rfl⟩

theorem wifiPhase_events (tm : LoopTimers) (e : Env) :
    (wifiPhase tm e).2 = [] ∨ (wifiPhase tm e).2 = [.wifiReconnect] := by
  simp only [wifiPhase]
  split_ifs <;> simp

theorem countEvent_wifiPhase_ne (ev : LoopEvent) (hne : ev ≠ .wifiReconnect)
    (tm : LoopTimers) (e : Env) : countEvent ev (wifiPhase tm e).2 = 0 := by
  rcases wifiPhase_events tm e with h | h <;> rw [h]
  · rfl
  · rw [countEvent_singleton, if_neg (Ne.symm hne)]

theorem sensorPhase_preserves (tm : LoopTimers) (sa : Bool) (sd : SensorData)
    (e : Env) : (sensorPhase tm sa sd e).1.lastMqttPublish = tm.lastMqttPublish := by
  simp only [sensorPhase]
  split_ifs <;> rfl

theorem sensorPhase_events (tm : LoopTimers) (sa : Bool) (sd : SensorData)
    (e : Env) : (sensorPhase tm sa sd e).2.2 = []
      ∨ (sensorPhase tm sa sd e).2.2 = [.sensorRead] := by
  simp only [sensorPhase]
  split_ifs <;> simp

theorem countEvent_sensorPhase_ne (ev : LoopEvent) (hne : ev ≠ .sensorRead)
    (tm : LoopTimers) (sa : Bool) (sd : SensorData) (e : Env) :
    countEvent ev (sensorPhase tm sa sd e).2.2 = 0 := by
  rcases sensorPhase_events tm sa sd e with h | h <;> rw [h]
  · rfl
  · rw [countEvent_singleton, if_neg (Ne.symm hne)]

theorem publishPhase_events (tm : LoopTimers) (c : Bool) (e : Env) :
    (publishPhase tm c e).2 = []
      ∨ (publishPhase tm c e).2 = publishSensorCalls c ++ publishStatusCalls c := by
  simp only [publishPhase]
  split_ifs <;> simp

theorem countEvent_publishPhase_ne (ev : LoopEvent)
    (h1 : ev ≠ .publish sensorTopic) (h2 : ev ≠ .publish statusTopic)
    (tm : LoopTimers) (c : Bool) (e : Env) :
    countEvent ev (publishPhase tm c e).2 = 0 := by
  rcases publishPhase_events tm c e with h | h <;> rw [h]
  · rfl
  · cases c
    · rfl
    · rw [show publishSensorCalls true ++ publishStatusCalls true =
          [.publish sensorTopic] ++ [.publish statusTopic] from rfl,
        countEvent_append, countEvent_singleton, countEvent_singleton,
        if_neg (Ne.symm h1), if_neg (Ne.symm h2)]

theorem mqttConnectRun_bound (ok : Nat → Bool) :
    ∀ (f t : Nat), (mqttConnectRun ok t f).1 ≤ t + f
      ∧ ((mqttConnectRun ok t f).2.1.all fun d => d = 2000) = true := by
  intro f
  induction f with
  | zero => intro t; simp [mqttConnectRun]
  | succ n ih =>
      intro t
      by_cases h : ok t = true
      · refine ⟨?_, ?_⟩ <;> simp [mqttConnectRun, h]
      · have ihh := ih (t + 1)
        refine ⟨?_, ?_⟩
        · have h1 := ihh.1
          simp [mqttConnectRun, h]
          omega
        · have h2 := ihh.2
          rcases Nat.eq_zero_or_pos n with hn | hn
          · subst hn
            simp [mqttConnectRun, h, h2]
          · have hn0 : ¬ n = 0 := by omega
            simp [mqttConnectRun, h, hn0, List.all_append, h2]

theorem wifiWaitPolls_bound (ok : Nat → Bool) :
    ∀ (f p : Nat), wifiWaitPolls ok p f ≤ p + f := by
  intro f
  induction f with
  | zero => intro p; simp [wifiWaitPolls]
  | succ n ih =>
      intro p
      by_cases h : ok p = true
      · simp [wifiWaitPolls, h]
      · have h1 := ih (p + 1)
        simp [wifiWaitPolls, h]
        omega

/-- C4: every periodic concern of `loop()` fires on `now - last >= interval`
(in `uint32_t` arithmetic) and then resets `last` to `now`, never to
`last + interval`: stated for the publish, sensor-read, WiFi-check,
status-print and MQTT-reconnect timers.  Consequently a loop resuming
after a stall of 3.5 publish intervals performs exactly one telemetry
publish, not four: the concrete run over iterations at 3500, 3510 and
3520 ms with all timers last serviced at 0 publishes once. -/
theorem C4_skip_dont_backlog :
    (∀ (tm : LoopTimers) (c : Bool) (e : Env),
      (publishPhase tm c e).1.lastMqttPublish =
        (if usub e.t2 tm.lastMqttPublish ≥ MQTT_PUBLISH_INTERVAL then e.t2
         else tm.lastMqttPublish)
      ∧ (publishPhase tm c e).2 =
        (if usub e.t2 tm.lastMqttPublish ≥ MQTT_PUBLISH_INTERVAL then
          publishSensorCalls c ++ publishStatusCalls c else []))
    ∧ (∀ (tm : LoopTimers) (sa : Bool) (sd : SensorData) (e : Env),
      (sensorPhase tm sa sd e).1.lastSensorRead =
        (if usub e.t2 tm.lastSensorRead ≥ SENSOR_READ_INTERVAL then e.t2
         else tm.lastSensorRead)
      ∧ (sensorPhase tm sa sd e).2.2 =
        (if usub e.t2 tm.lastSensorRead ≥ SENSOR_READ_INTERVAL then [.sensorRead]
         else []))
    ∧ (∀ (tm : LoopTimers) (e : Env),
      (wifiPhase tm e).1.lastWiFiCheck =
        (if usub e.t1 tm.lastWiFiCheck ≥ WIFI_CHECK_INTERVAL then e.t1
         else tm.lastWiFiCheck)
      ∧ (wifiPhase tm e).1.lastStatusPrint =
        (if usub e.t1 tm.lastWiFiCheck ≥ WIFI_CHECK_INTERVAL
            ∧ e.wifiStatus = WL_CONNECTED
            ∧ usub e.t1 tm.lastStatusPrint ≥ STATUS_PRINT_INTERVAL then e.t1
         else tm.lastStatusPrint))
    ∧ (∀ (tm : LoopTimers) (c : Bool) (e : Env),
      (mqttPhase tm c e).1.lastMqttReconnectAttempt =
        (if e.wifiStatus = WL_CONNECTED ∧ c = false
            ∧ usub e.t1 tm.lastMqttReconnectAttempt ≥ MQTT_RECONNECT_INTERVAL
         then e.t1 else tm.lastMqttReconnectAttempt))
    ∧ countEvent (.publish sensorTopic)
        (runLoop stallState [stallEnv 3500, stallEnv 3510, stallEnv 3520]).2 = 1 := by
  refine ⟨?_, ?_, ?_, ?_, by decide⟩
  · intro tm c e
    by_cases h : usub e.t2 tm.lastMqttPublish ≥ MQTT_PUBLISH_INTERVAL <;>
      simp [publishPhase, h]
  · intro tm sa sd e
    by_cases h : usub e.t2 tm.lastSensorRead ≥ SENSOR_READ_INTERVAL <;>
      simp [sensorPhase, h]
  · intro tm e
    by_cases h1 : usub e.t1 tm.lastWiFiCheck ≥ WIFI_CHECK_INTERVAL <;>
      by_cases h2 : e.wifiStatus = WL_CONNECTED <;>
        by_cases h3 : usub e.t1 tm.lastStatusPrint ≥ STATUS_PRINT_INTERVAL <;>
          simp [wifiPhase, h1, h2, h3]
  · intro tm c e
    by_cases h1 : e.wifiStatus = WL_CONNECTED <;>
      cases c <;>
        by_cases h3 : usub e.t1 tm.lastMqttReconnectAttempt ≥ MQTT_RECONNECT_INTERVAL <;>
          by_cases h4 : e.reconnectOk = true <;>
            simp [mqttPhase, h1, h3, h4]

/-- C5: in an iteration where the link is up, the session is down, the
scheduled repair is due and succeeds, the session ends Connected, the
whole iteration emits exactly one resubscription to the command topic,
the repair block itself emits exactly one immediate telemetry publish
(ahead of the scheduled publish concern), and when the publish interval
has not yet elapsed in that iteration this is the iteration's only
telemetry publish. -/
theorem C5_repair_resubscribes_and_probes (st : LoopState) (e : Env)
    (hw : e.wifiStatus = WL_CONNECTED)
    (hm : st.mqttConnected = false)
    (hd : usub e.t1 st.timers.lastMqttReconnectAttempt ≥ MQTT_RECONNECT_INTERVAL)
    (hr : e.reconnectOk = true) :
    (loopIter st e).1.mqttConnected = true
    ∧ countEvent (.subscribe commandTopic) (loopIter st e).2 = 1
    ∧ countEvent (.publish sensorTopic)
        (mqttPhase (wifiPhase st.timers e).1 st.mqttConnected e).2.2 = 1
    ∧ (usub e.t2 st.timers.lastMqttPublish < MQTT_PUBLISH_INTERVAL →
        countEvent (.publish sensorTopic) (loopIter st e).2 = 1) := by
  have hpre := wifiPhase_preserves st.timers e
  have hm2 : mqttPhase (wifiPhase st.timers e).1 st.mqttConnected e =
      ({ (wifiPhase st.timers e).1 with lastMqttReconnectAttempt := e.t1 }, true,
       [.mqttReconnectAttempt, .subscribe commandTopic, .publish sensorTopic]) := by
    rw [hm]
    simp [mqttPhase, hw, hr, publishSensorCalls, hpre.1, hd]
  have hmev : (mqttPhase (wifiPhase st.timers e).1 st.mqttConnected e).2.2 =
      [.mqttReconnectAttempt, .subscribe commandTopic, .publish sensorTopic] := by
    rw [hm2]
  have hmc : (mqttPhase (wifiPhase st.timers e).1 st.mqttConnected e).2.1 = true := by
    rw [hm2]
  have hsub : countEvent (.subscribe commandTopic)
      [LoopEvent.mqttReconnectAttempt, .subscribe commandTopic, .publish sensorTopic] = 1 := by
    decide
  have hpubm : countEvent (.publish sensorTopic)
      [LoopEvent.mqttReconnectAttempt, .subscribe commandTopic, .publish sensorTopic] = 1 := by
    decide
  refine ⟨?_, ?_, ?_, ?_⟩
  · simp [loopIter, hmc]
  · simp only [loopIter, countEvent_append, hmev,
      countEvent_wifiPhase_ne (.subscribe commandTopic) (by decide),
      countEvent_sensorPhase_ne (.subscribe commandTopic) (by decide),
      countEvent_publishPhase_ne (.subscribe commandTopic) (by decide) (by decide), hsub]
  · rw [hmev, hpubm]
  · intro hp
    have hlp : (mqttPhase (wifiPhase st.timers e).1 st.mqttConnected e).1.lastMqttPublish =
        st.timers.lastMqttPublish := by
      rw [hm2]
      exact hpre.2.2
    have hpub : (publishPhase (sensorPhase
        (mqttPhase (wifiPhase st.timers e).1 st.mqttConnected e).1
        st.sensorAvailable st.sensorData e).1
        (mqttPhase (wifiPhase st.timers e).1 st.mqttConnected e).2.1 e).2 = [] := by
      simp only [publishPhase, sensorPhase_preserves, hlp]
      rw [if_neg (by omega)]
    simp only [loopIter, countEvent_append, hpub, hmev,
      countEvent_wifiPhase_ne (.publish sensorTopic) (by decide),
      countEvent_sensorPhase_ne (.publish sensorTopic) (by decide), hpubm, countEvent_nil]

/-- Witness input for C5: session down, link up, repair due at 10000 ms,
last publish 300 ms ago. -/
def c5State : LoopState :=
  { timers := { lastWiFiCheck := 9000, lastStatusPrint := 9000,
                lastMqttReconnectAttempt := 0, lastSensorRead := 9950,
                lastMqttPublish := 9700 },
    mqttConnected := false, sensorAvailable := false,
    sensorData := initSensorData, relay := relayInit }

/-- Witness environment for C5. -/
def c5Env : Env :=
  { t1 := 10000, t2 := 10000, wifiStatus := WL_CONNECTED, reconnectOk := true,
    cur_mA := 0, bus_V := 0, pow_mW := 0 }

/-- C5 witness: the repair iteration at the concrete input resubscribes
once and publishes exactly one telemetry message. -/
theorem C5_witness :
    (loopIter c5State c5Env).1.mqttConnected = true
    ∧ countEvent (.subscribe commandTopic) (loopIter c5State c5Env).2 = 1
    ∧ countEvent (.publish sensorTopic) (loopIter c5State c5Env).2 = 1 := by
  have h := C5_repair_resubscribes_and_probes c5State c5Env (by decide) (by decide)
    (by decide) (by decide)
  exact ⟨h.1, h.2.1, h.2.2.2 (by decide)⟩

/-- C7: one `reconnectMQTT` invocation with the link up makes at most 5
`connect()` tries and every inter-attempt pause it takes is the fixed
2000 ms; one `connectToWiFi` invocation polls the association status at
most 30 times.  Both routines are total functions, so each invocation
returns control to the loop. -/
theorem C7_bounded_retry_budgets :
    (∀ (connectOk : Nat → Bool) (ac : Bool),
      (reconnectMQTT true ac connectOk).1 ≤ 5
      ∧ ((reconnectMQTT true ac connectOk).2.1.all fun d => d = 2000) = true)
    ∧ (∀ statusOk : Nat → Bool, connectToWiFiPolls statusOk ≤ 30) := by
  constructor
  · intro ok ac
    cases ac
    · have h := mqttConnectRun_bound ok 5 0
      simpa [reconnectMQTT] using h
    · simp [reconnectMQTT]
  · intro ok
    have h := wifiWaitPolls_bound ok 30 0
    simpa [connectToWiFiPolls] using h

/-- C9: when the link is observed down in an iteration, the session ends
Disconnected, a previously connected client is disconnected exactly once,
and no session connect attempt is emitted; `reconnectMQTT` called with
the link down makes zero connect tries and leaves the session state
unchanged. -/
theorem C9_session_implies_link :
    (∀ (st : LoopState) (e : Env), e.wifiStatus ≠ WL_CONNECTED →
      (loopIter st e).1.mqttConnected = false
      ∧ (st.mqttConnected = true →
          countEvent .mqttDisconnect (loopIter st e).2 = 1)
      ∧ countEvent .mqttReconnectAttempt (loopIter st e).2 = 0)
    ∧ (∀ (ac : Bool) (connectOk : Nat → Bool),
      (reconnectMQTT false ac connectOk).1 = 0
      ∧ (reconnectMQTT false ac connectOk).2.2 = ac) := by
  constructor
  · intro st e h
    have hm2 : mqttPhase (wifiPhase st.timers e).1 st.mqttConnected e =
        ((wifiPhase st.timers e).1, false,
         if st.mqttConnected then [.mqttDisconnect] else []) := by
      cases hc : st.mqttConnected <;> simp [mqttPhase, h, hc]
    have hmev : (mqttPhase (wifiPhase st.timers e).1 st.mqttConnected e).2.2 =
        (if st.mqttConnected then [.mqttDisconnect] else []) := by
      rw [hm2]
    have hmc : (mqttPhase (wifiPhase st.timers e).1 st.mqttConnected e).2.1 = false := by
      rw [hm2]
    refine ⟨by simp [loopIter, hmc], ?_, ?_⟩
    · intro hc
      simp only [loopIter, countEvent_append, hmev,
        countEvent_wifiPhase_ne (.mqttDisconnect) (by decide),
        countEvent_sensorPhase_ne (.mqttDisconnect) (by decide),
        countEvent_publishPhase_ne (.mqttDisconnect) (by decide) (by decide)]
      rw [hc]
      decide
    · simp only [loopIter, countEvent_append, hmev,
        countEvent_wifiPhase_ne (.mqttReconnectAttempt) (by decide),
        countEvent_sensorPhase_ne (.mqttReconnectAttempt) (by decide),
        countEvent_publishPhase_ne (.mqttReconnectAttempt) (by decide) (by decide)]
      cases st.mqttConnected <;> decide
  · intro ac ok
    simp [reconnectMQTT]

/-- Witness environment for C9: link down at time 0. -/
def c9Env : Env :=
  { t1 := 0, t2 := 0, wifiStatus := 0, reconnectOk := false,
    cur_mA := 0, bus_V := 0, pow_mW := 0 }

/-- C9 witness: from a connected session with the link observed down, the
iteration disconnects exactly once; `reconnectMQTT` with the link down
makes zero tries. -/
theorem C9_witness :
    (loopIter stallState c9Env).1.mqttConnected = false
    ∧ countEvent .mqttDisconnect (loopIter stallState c9Env).2 = 1
    ∧ (reconnectMQTT false false (fun _ => true)).1 = 0 := by
  have h := C9_session_implies_link
  exact ⟨(h.1 stallState c9Env (by decide)).1,
    (h.1 stallState c9Env (by decide)).2.1 rfl,
    (h.2 false (fun _ => true)).1⟩

/-- C10: with the 32V/2A calibration used in `setup()`, the current
reading reinterprets its 16-bit register as signed two's complement and
is negative for some register value, while the power reading treats its
register as unsigned and is non-negative for every register value. -/
theorem C10_current_signed_power_unsigned :
    (∃ reg : Nat, getCurrent_mA currentLSB_32V_2A reg < 0)
    ∧ (∀ reg : Nat, 0 ≤ getPower_mW powerLSB_32V_2A reg) := by
  constructor
  · refine ⟨65535, ?_⟩
    norm_num [getCurrent_mA, toInt16, currentLSB_32V_2A]
  · intro reg
    unfold getPower_mW powerLSB_32V_2A
    positivity

end NILM
